import Mathlib

/-!
Shallow embedding of the derived-table production path of
`DPG/Tasks/qaEventTrack.cxx` (struct `qaEventTrack`): the collision/track
selection predicates (`isSelectedCollision`, `isSelectedTrack`), the event
sampler and derived-table writer (`fillDerivedTable`), and the
mutual-exclusion check in `qaEventTrack::init`.

Modelling conventions:
  * C++ `float` quantities are modelled as `Rat` (the claims only depend on
    order comparisons and exact copies of these values); `std::sqrt` is
    modelled by `Rat.sqrt`.
  * C++ `int` / `int64_t` quantities are modelled as `Int`.
  * The O2 framework's `Produces<...>` tables are modelled as Lean lists held
    in a `WriterState`; appending a row is appending to the list, and
    `lastIndex()` is `length - 1`.
  * The process-global C `rand()` stream is modelled as a function
    `rng : Nat → Rat` (the value of `rand()/RAND_MAX` for each successive
    call) together with a cursor `rngIndex` in the state; each evaluation of
    `rand()` reads `rng rngIndex` and advances the cursor.
  * Histogram fills are pure observations with no effect on the tables and
    are not modelled.
-/

/-- Monte-Carlo truth particle (`aod::McParticles` row), with the fields read
by `fillDerivedTable` and `isSelectedTrack`: `globalIndex()`,
`mcCollisionId`, kinematics, `pdgCode()`, `isPhysicalPrimary()`,
`getProcess()` and the production vertex `vx()/vy()/vz()`. -/
structure McParticle where
  globalIndex : Int
  mcCollisionId : Int
  pt : Rat
  eta : Rat
  phi : Rat
  pdgCode : Int
  isPhysicalPrimary : Bool
  getProcess : Int
  vx : Rat
  vy : Rat
  vz : Rat
  deriving DecidableEq

/-- Reconstructed track row (join of `aod::FullTracks` with covariance, DCA,
selection, TOF columns, plus `aod::McTrackLabels` in the MC instantiation),
with exactly the fields read by `isSelectedTrack` and the `tableTracks`
emission in `fillDerivedTable`.  `mcParticle = none` models
`has_mcParticle() == false`; in the data instantiation the label column is
absent and never read, so `none` is used there as well. -/
structure Track where
  pt : Rat
  eta : Rat
  phi : Rat
  c1Pt21Pt2 : Rat
  flags : Nat
  sign : Int
  dcaXY : Rat
  dcaZ : Rat
  length : Rat
  itsClusterMap : Nat
  itsChi2NCl : Rat
  tpcChi2NCl : Rat
  trdChi2 : Rat
  tofChi2 : Rat
  hasITS : Bool
  hasTPC : Bool
  hasTRD : Bool
  hasTOF : Bool
  tpcNClsFound : Int
  tpcNClsCrossedRows : Int
  tpcCrossedRowsOverFindableCls : Rat
  tpcFoundOverFindableCls : Rat
  tpcFractionSharedCls : Rat
  itsNCls : Int
  itsNClsInnerBarrel : Int
  tpcSignal : Rat
  tofSignal : Rat
  tofEvTime : Rat
  mcParticle : Option McParticle
  deriving DecidableEq

/-- Reconstructed collision row (join of `aod::Collisions`, `aod::EvSels`,
and `aod::McCollisionLabels` in the MC instantiation), with the fields read
by `fillDerivedTable`: `posZ()`, `sel7()`, `sel8()`, `bc().runNumber()`, and
the MC-collision link (`has_mcCollision()` / `mcCollision().globalIndex()`),
modelled as an `Option Int`. -/
structure Collision where
  posZ : Rat
  sel7 : Bool
  sel8 : Bool
  runNumber : Int
  mcCollision : Option Int
  deriving DecidableEq

/-- The `Configurable<...>` members of `qaEventTrack` consulted by the
derived-table path. -/
structure Config where
  isRun3 : Bool
  selectGoodEvents : Bool
  selectMaxVtxZ : Rat
  targetNumberOfEvents : Int
  fractionOfSampledEvents : Rat
  selectCharge : Int
  selectPrim : Bool
  selectSec : Bool
  selectPID : Int
  deriving DecidableEq

/-- Row of `o2::aod::DPGCollisions` as filled by `tableCollisions(...)`. -/
structure CollisionOut where
  posZ : Rat
  eventSelection : Bool
  runNumber : Int
  deriving DecidableEq

/-- Row of `o2::aod::DPGTracks` as filled by `tableTracks(...)`; the first
field is the back-reference `tableCollisions.lastIndex()`. -/
structure TrackOut where
  collisionId : Nat
  pt : Rat
  eta : Rat
  phi : Rat
  ptReso : Rat
  flags : Nat
  sign : Int
  dcaXY : Rat
  dcaZ : Rat
  length : Rat
  itsClusterMap : Nat
  itsChi2NCl : Rat
  tpcChi2NCl : Rat
  trdChi2 : Rat
  tofChi2 : Rat
  hasITS : Bool
  hasTPC : Bool
  hasTRD : Bool
  hasTOF : Bool
  tpcNClsFound : Int
  tpcNClsCrossedRows : Int
  tpcCrossedRowsOverFindableCls : Rat
  tpcFoundOverFindableCls : Rat
  tpcFractionSharedCls : Rat
  itsNCls : Int
  itsNClsInnerBarrel : Int
  tpcSignal : Rat
  tofSignalMinusEvTime : Rat
  deriving DecidableEq

/-- Row of `o2::aod::DPGRecoParticles` as filled by `tableRecoParticles(...)`. -/
structure RecoParticleOut where
  pt : Rat
  eta : Rat
  phi : Rat
  pdgCode : Int
  production : Int
  deriving DecidableEq

/-- Row of `o2::aod::DPGNonRecoParticles` as filled by
`tableNonRecoParticles(...)`; the first field is the back-reference
`tableCollisions.lastIndex()`. -/
structure NonRecoParticleOut where
  collisionId : Nat
  pt : Rat
  eta : Rat
  phi : Rat
  pdgCode : Int
  production : Int
  vx : Rat
  vy : Rat
  vz : Rat
  deriving DecidableEq

/-- Mutable state of the writer across calls: the event counter
`nTableEventCounter`, the four produced tables, and the cursor into the
modelled `rand()` stream. -/
structure WriterState where
  nTableEventCounter : Int
  tableCollisions : List CollisionOut
  tableTracks : List TrackOut
  tableRecoParticles : List RecoParticleOut
  tableNonRecoParticles : List NonRecoParticleOut
  rngIndex : Nat
  deriving DecidableEq

/-- `qaEventTrack::isSelectedCollision<doFill>` (the `doFill` histogram fills
have no effect on the result): reject when `selectGoodEvents` is set and the
run-appropriate event-selection bit (`sel8()` for Run 3, `sel7()` otherwise)
is not set. -/
def isSelectedCollision (cfg : Config) (collision : Collision) : Bool :=
  if cfg.selectGoodEvents && !(if cfg.isRun3 then collision.sel8 else collision.sel7) then
    false
  else
    true

/-- `qaEventTrack::isSelectedTrack<IS_MC>`.  The C++ truthiness tests
`if (selectCharge)` and `if (selectPID)` are nonzero tests on `int`
configurables; `std::abs(particle.pdgCode())` is `|pdgCode|` on `Int`. -/
def isSelectedTrack (isMC : Bool) (cfg : Config) (track : Track) : Bool :=
  if cfg.selectCharge ≠ 0 ∧ cfg.selectCharge ≠ track.sign then
    false
  else if isMC then
    match track.mcParticle with
    | none =>
      if cfg.selectPrim ∨ cfg.selectSec ∨ cfg.selectPID ≠ 0 then false else true
    | some particle =>
      if cfg.selectPrim ∧ ¬ particle.isPhysicalPrimary then false
      else if cfg.selectSec ∧ particle.isPhysicalPrimary then false
      else if cfg.selectPID ≠ 0 ∧ cfg.selectPID ≠ |particle.pdgCode| then false
      else true
  else
    true

/-- The production-mechanism classification computed (by the same three-way
`if` chain) at both emission sites of `fillDerivedTable`: 0 if
`isPhysicalPrimary()`, else 1 if `getProcess() == 4`, else 2. -/
def classifyProduction (particle : McParticle) : Int :=
  if particle.isPhysicalPrimary then 0
  else if particle.getProcess = 4 then 1
  else 2

/-- The `tableTracks(...)` row built for one selected track, back-referencing
the collision row at output position `collisionIdx`. -/
def mkTrackOut (collisionIdx : Nat) (track : Track) : TrackOut :=
  { collisionId := collisionIdx
    pt := track.pt
    eta := track.eta
    phi := track.phi
    ptReso := track.pt * Rat.sqrt track.c1Pt21Pt2
    flags := track.flags
    sign := track.sign
    dcaXY := track.dcaXY
    dcaZ := track.dcaZ
    length := track.length
    itsClusterMap := track.itsClusterMap
    itsChi2NCl := track.itsChi2NCl
    tpcChi2NCl := track.tpcChi2NCl
    trdChi2 := track.trdChi2
    tofChi2 := track.tofChi2
    hasITS := track.hasITS
    hasTPC := track.hasTPC
    hasTRD := track.hasTRD
    hasTOF := track.hasTOF
    tpcNClsFound := track.tpcNClsFound
    tpcNClsCrossedRows := track.tpcNClsCrossedRows
    tpcCrossedRowsOverFindableCls := track.tpcCrossedRowsOverFindableCls
    tpcFoundOverFindableCls := track.tpcFoundOverFindableCls
    tpcFractionSharedCls := track.tpcFractionSharedCls
    itsNCls := track.itsNCls
    itsNClsInnerBarrel := track.itsNClsInnerBarrel
    tpcSignal := track.tpcSignal
    tofSignalMinusEvTime := track.tofSignal - track.tofEvTime }

/-- The `tableRecoParticles(...)` row built for one selected track in MC
mode: the truth particle's kinematics, PDG code, and production
classification when the track has a truth match, and the track's own
kinematics with PDG code 0 and the sentinel production value -1 otherwise. -/
def mkRecoParticleOut (track : Track) : RecoParticleOut :=
  match track.mcParticle with
  | some particle =>
    { pt := particle.pt
      eta := particle.eta
      phi := particle.phi
      pdgCode := particle.pdgCode
      production := classifyProduction particle }
  | none =>
    { pt := track.pt
      eta := track.eta
      phi := track.phi
      pdgCode := 0
      production := -1 }

/-- The `tableNonRecoParticles(...)` row built for one unreconstructed truth
particle, back-referencing the collision row at output position
`collisionIdx`. -/
def mkNonRecoParticleOut (collisionIdx : Nat) (particle : McParticle) : NonRecoParticleOut :=
  { collisionId := collisionIdx
    pt := particle.pt
    eta := particle.eta
    phi := particle.phi
    pdgCode := particle.pdgCode
    production := classifyProduction particle
    vx := particle.vx
    vy := particle.vy
    vz := particle.vz }

/-- The emission part of `qaEventTrack::fillDerivedTable` (everything after
the four admission checks): increment `nTableEventCounter`, append the
collision row, then append one `tableTracks` row per selected track; in MC
mode also append one `tableRecoParticles` row per selected track while
collecting `recoPartIndices` — a `std::vector<int64_t>` zero-initialized to
size `nTracks` whose prefix is overwritten (via `iTrack++`) with the
`globalIndex()` of each selected track's truth match, in track order — and
finally, if the collision has a truth collision, append one
`tableNonRecoParticles` row for each particle of that truth collision whose
`globalIndex()` is not found in `recoPartIndices`. -/
def emitDerived (isMC : Bool) (cfg : Config) (collision : Collision)
    (tracks : List Track) (particles : List McParticle) (s : WriterState) : WriterState :=
  let s1 : WriterState :=
    { s with
      nTableEventCounter := s.nTableEventCounter + 1
      tableCollisions := s.tableCollisions ++
        [{ posZ := collision.posZ
           eventSelection := if cfg.isRun3 then collision.sel8 else collision.sel7
           runNumber := collision.runNumber }] }
  let collisionIdx := s1.tableCollisions.length - 1
  let selected := tracks.filter (fun track => isSelectedTrack isMC cfg track)
  let nTracks := selected.length
  let matchedIndices :=
    (selected.filterMap (fun track => track.mcParticle)).map (fun particle => particle.globalIndex)
  let recoPartIndices : List Int :=
    if isMC then matchedIndices ++ List.replicate (nTracks - matchedIndices.length) 0 else []
  let s2 : WriterState :=
    { s1 with
      tableTracks := s1.tableTracks ++ selected.map (fun track => mkTrackOut collisionIdx track)
      tableRecoParticles := s1.tableRecoParticles ++
        (if isMC then selected.map mkRecoParticleOut else []) }
  if isMC then
    match collision.mcCollision with
    | none => s2
    | some mcCollisionId =>
      let particlesInCollision :=
        particles.filter (fun particle => particle.mcCollisionId = mcCollisionId)
      { s2 with
        tableNonRecoParticles := s2.tableNonRecoParticles ++
          particlesInCollision.filterMap (fun particle =>
            if recoPartIndices.contains particle.globalIndex then none
            else some (mkNonRecoParticleOut collisionIdx particle)) }
  else s2

/-- `qaEventTrack::fillDerivedTable<IS_MC>`: the four early-return admission
checks (collision selection, vertex-Z window, random downsampling when
`fractionOfSampledEvents < 1`, and the event-count cap
`nTableEventCounter > targetNumberOfEvents`), followed by `emitDerived`.
`rand()` is evaluated — consuming one value of the `rng` stream — exactly
when `fractionOfSampledEvents < 1`, whether or not the draw rejects. -/
def fillDerivedTable (isMC : Bool) (cfg : Config) (rng : Nat → Rat)
    (collision : Collision) (tracks : List Track) (particles : List McParticle)
    (s : WriterState) : WriterState :=
  if ! isSelectedCollision cfg collision then
    s
  else if |collision.posZ| > cfg.selectMaxVtxZ then
    s
  else if cfg.fractionOfSampledEvents < 1 ∧ rng s.rngIndex > cfg.fractionOfSampledEvents then
    { s with rngIndex := s.rngIndex + 1 }
  else
    let s1 : WriterState :=
      if cfg.fractionOfSampledEvents < 1 then { s with rngIndex := s.rngIndex + 1 } else s
    if s1.nTableEventCounter > cfg.targetNumberOfEvents then
      s1
    else
      emitDerived isMC cfg collision tracks particles s1

/-- Error raised by `qaEventTrack::init` when the two derived-table process
switches are enabled together. -/
inductive InitError where
  | mutuallyExclusiveTableModes
  deriving DecidableEq

/-- The mutual-exclusion check at the top of `qaEventTrack::init`:
`LOGF(fatal, ...)` (modelled as an error result) when `doprocessTableData`
and `doprocessTableMC` are both enabled, and success otherwise. -/
def initTableModeCheck (doprocessTableData doprocessTableMC : Bool) : Except InitError Unit :=
  if doprocessTableData = true ∧ doprocessTableMC = true then
    Except.error InitError.mutuallyExclusiveTableModes
  else
    Except.ok ()

/-- Referential-integrity invariant on the writer state: every emitted track
row and every emitted non-reconstructed-particle row back-references an
output position that already exists in the emitted collision table (so it
identifies exactly one collision row, and is never a forward reference). -/
def wfRefs (s : WriterState) : Prop :=
  (∀ t ∈ s.tableTracks, t.collisionId < s.tableCollisions.length) ∧
  (∀ r ∈ s.tableNonRecoParticles, r.collisionId < s.tableCollisions.length)

/-- The spec-side characterization of `isSelectedTrack` in MC mode, written
as the plain conjunction of the predicates the spec enumerates: the charge
requirement, the no-truth-match rule (accepted exactly when no truth-based
option is active), and for matched tracks the primary-only, secondary-only
and absolute-value PID requirements.  Compared against `isSelectedTrack`
(translated from the source) in the claim theorem. -/
def trackSelectionSpecMC (cfg : Config) (track : Track) : Prop :=
  (cfg.selectCharge ≠ 0 → cfg.selectCharge = track.sign) ∧
  (match track.mcParticle with
   | none => cfg.selectPrim = false ∧ cfg.selectSec = false ∧ cfg.selectPID = 0
   | some particle =>
     (cfg.selectPrim = true → particle.isPhysicalPrimary = true) ∧
     (cfg.selectSec = true → particle.isPhysicalPrimary = false) ∧
     (cfg.selectPID ≠ 0 → cfg.selectPID = |particle.pdgCode|))

/-- Concrete configuration matching the defaults of the `Configurable`
declarations, except that `selectGoodEvents` is off so that event selection
passes without reference to `sel7`/`sel8`. -/
def cfgBase : Config :=
  { isRun3 := false
    selectGoodEvents := false
    selectMaxVtxZ := 100
    targetNumberOfEvents := 10000000
    fractionOfSampledEvents := 1
    selectCharge := 0
    selectPrim := false
    selectSec := false
    selectPID := 0 }

/-- `cfgBase` with the event cap set to 5. -/
def cfgTarget5 : Config := { cfgBase with targetNumberOfEvents := 5 }

/-- `cfgBase` with a specific PID selection (pion code 211). -/
def cfgPID211 : Config := { cfgBase with selectPID := 211 }

/-- `cfgBase` with `selectGoodEvents` enabled. -/
def cfgGoodEvents : Config := { cfgBase with selectGoodEvents := true }

/-- `cfgBase` with every truth-based track option active. -/
def cfgTruthOptionsOn : Config :=
  { cfgBase with selectPrim := true, selectSec := true, selectPID := 13 }

/-- Concrete positive track without a truth match (`has_mcParticle` false). -/
def trackNoTruth : Track :=
  { pt := 2, eta := 0, phi := 0, c1Pt21Pt2 := 0, flags := 0, sign := 1,
    dcaXY := 0, dcaZ := 0, length := 0, itsClusterMap := 0,
    itsChi2NCl := 0, tpcChi2NCl := 0, trdChi2 := 0, tofChi2 := 0,
    hasITS := false, hasTPC := false, hasTRD := false, hasTOF := false,
    tpcNClsFound := 0, tpcNClsCrossedRows := 0,
    tpcCrossedRowsOverFindableCls := 0, tpcFoundOverFindableCls := 0,
    tpcFractionSharedCls := 0, itsNCls := 0, itsNClsInnerBarrel := 0,
    tpcSignal := 0, tofSignal := 0, tofEvTime := 0, mcParticle := none }

/-- Concrete truth particle occupying global index 0 of `aod::McParticles`
(the first row of the table has global index 0). -/
def truthParticleZero : McParticle :=
  { globalIndex := 0, mcCollisionId := 0, pt := 1, eta := 0, phi := 0,
    pdgCode := 211, isPhysicalPrimary := true, getProcess := 0,
    vx := 0, vy := 0, vz := 0 }

/-- Concrete truth particle with PDG code -211 (negative pion). -/
def pionMinus : McParticle := { truthParticleZero with globalIndex := 1, pdgCode := -211 }

/-- Concrete non-primary truth particle with production process 4 (decay). -/
def decayParticle : McParticle :=
  { truthParticleZero with globalIndex := 2, isPhysicalPrimary := false, getProcess := 4 }

/-- Concrete non-primary truth particle with production process 2 (not 4). -/
def materialParticle : McParticle :=
  { truthParticleZero with globalIndex := 3, isPhysicalPrimary := false, getProcess := 2 }

/-- Concrete track truth-matched to `pionMinus`. -/
def trackPionMinus : Track := { trackNoTruth with mcParticle := some pionMinus }

/-- Concrete collision at the origin, linked to truth collision 0. -/
def collWithTruth : Collision :=
  { posZ := 0, sel7 := true, sel8 := true, runNumber := 1, mcCollision := some 0 }

/-- `collWithTruth` moved to `posZ = 150`. -/
def collPosZ150 : Collision := { collWithTruth with posZ := 150 }

/-- `collWithTruth` with both event-selection bits off. -/
def collSel7Off : Collision := { collWithTruth with sel7 := false, sel8 := false }

/-- Fresh writer state: counter 0, all output tables empty. -/
def emptyState : WriterState :=
  { nTableEventCounter := 0, tableCollisions := [], tableTracks := [],
    tableRecoParticles := [], tableNonRecoParticles := [], rngIndex := 0 }

/-- Writer state whose running event count is 5. -/
def stateCount5 : WriterState := { emptyState with nTableEventCounter := 5 }

/-- Writer state whose running event count is 6. -/
def stateCount6 : WriterState := { emptyState with nTableEventCounter := 6 }

/-- A `rand()/RAND_MAX` stream that always draws 0. -/
def zeroRng : Nat → Rat := fun _ => 0

/-- A `rand()/RAND_MAX` stream that always draws 1. -/
def oneRng : Nat → Rat := fun _ => 1

theorem emitDerived_tableCollisions (isMC : Bool) (cfg : Config) (collision : Collision)
    (tracks : List Track) (particles : List McParticle) (s : WriterState) :
    (emitDerived isMC cfg collision tracks particles s).tableCollisions =
      s.tableCollisions ++
        [{ posZ := collision.posZ
           eventSelection := if cfg.isRun3 then collision.sel8 else collision.sel7
           runNumber := collision.runNumber }] := by
  unfold emitDerived
  rcases hm : collision.mcCollision with _ | mcId <;> cases isMC <;> simp [hm]

theorem emitDerived_nTableEventCounter (isMC : Bool) (cfg : Config) (collision : Collision)
    (tracks : List Track) (particles : List McParticle) (s : WriterState) :
    (emitDerived isMC cfg collision tracks particles s).nTableEventCounter =
      s.nTableEventCounter + 1 := by
  unfold emitDerived
  rcases hm : collision.mcCollision with _ | mcId <;> cases isMC <;> simp [hm]

theorem emitDerived_rngIndex (isMC : Bool) (cfg : Config) (collision : Collision)
    (tracks : List Track) (particles : List McParticle) (s : WriterState) :
    (emitDerived isMC cfg collision tracks particles s).rngIndex = s.rngIndex := by
  unfold emitDerived
  rcases hm : collision.mcCollision with _ | mcId <;> cases isMC <;> simp [hm]

theorem emitDerived_tableTracks (isMC : Bool) (cfg : Config) (collision : Collision)
    (tracks : List Track) (particles : List McParticle) (s : WriterState) :
    (emitDerived isMC cfg collision tracks particles s).tableTracks =
      s.tableTracks ++
        (tracks.filter (fun track => isSelectedTrack isMC cfg track)).map
          (fun track => mkTrackOut s.tableCollisions.length track) := by
  unfold emitDerived
  rcases hm : collision.mcCollision with _ | mcId <;> cases isMC <;> simp [hm]

theorem emitDerived_tableNonReco_spec (isMC : Bool) (cfg : Config) (collision : Collision)
    (tracks : List Track) (particles : List McParticle) (s : WriterState) :
    ∃ newRows, (emitDerived isMC cfg collision tracks particles s).tableNonRecoParticles =
        s.tableNonRecoParticles ++ newRows ∧
      ∀ r ∈ newRows, r.collisionId = s.tableCollisions.length := by
  unfold emitDerived
  rcases hm : collision.mcCollision with _ | mcId <;> cases isMC <;> simp [hm]
  case _ =>
    rintro r particle hmem hid h1 h2 rfl
    rfl

/-- Claim C1 (divergence witnessed by execution): for an admitted MC
collision with one selected track that has no truth match and a truth
collision whose only particle occupies global index 0, that particle is
matched by no track, so by the claim the output should contain exactly one
`NonRecoParticleOut` record for it; the code instead emits none, because the
zero-initialized tail of `recoPartIndices` (sized to the number of selected
tracks but only partially overwritten) makes `std::find` treat global index
0 as already matched.  The recorded output shows the track was emitted with
the no-match sentinel row (PDG 0, production -1), i.e. no
`ReconstructedParticleOut` record references the particle, yet the
non-reconstructed table is empty. -/
theorem c1_zero_index_phantom_match :
    (fillDerivedTable true cfgBase zeroRng collWithTruth [trackNoTruth] [truthParticleZero]
        emptyState).tableTracks.length = 1 ∧
    (fillDerivedTable true cfgBase zeroRng collWithTruth [trackNoTruth] [truthParticleZero]
        emptyState).tableRecoParticles =
      [{ pt := 2, eta := 0, phi := 0, pdgCode := 0, production := -1 }] ∧
    (fillDerivedTable true cfgBase zeroRng collWithTruth [trackNoTruth] [truthParticleZero]
        emptyState).tableNonRecoParticles = [] := by
  decide

/-- Claim C2 counterexample: with `targetNumberOfEvents = 5`, a collision
that passes every other admission check but arrives when the running count
is exactly 6 is rejected (`6 > 5` triggers the strict greater-than cutoff):
the writer state is unchanged and no collision record is emitted, contrary
to the claim that such a collision is admitted. -/
theorem c2_running_count_six_rejected :
    fillDerivedTable false cfgTarget5 zeroRng collWithTruth [trackNoTruth] [] stateCount6 =
      stateCount6 ∧
    (fillDerivedTable false cfgTarget5 zeroRng collWithTruth [trackNoTruth] []
        stateCount6).tableCollisions.length = 0 := by
  decide

/-- Claim C2 (amended): the cap check uses strict greater-than of the
running count against `targetNumberOfEvents`, so for a collision passing
the other admission checks the collision is admitted exactly when the
running count is at most the target — counts 0..target are admitted, which
is one more admitted event than the target — and rejected (state unchanged)
as soon as the running count exceeds the target; with target 5 this means a
collision arriving at running count 5 is admitted (the sixth admitted
event) and one arriving at running count 6 is rejected. -/
theorem c2_cap_admits_target_plus_one (isMC : Bool) (cfg : Config) (rng : Nat → Rat)
    (collision : Collision) (tracks : List Track) (particles : List McParticle)
    (s : WriterState)
    (hsel : isSelectedCollision cfg collision = true)
    (hz : ¬ |collision.posZ| > cfg.selectMaxVtxZ)
    (hf : cfg.fractionOfSampledEvents = 1) :
    (s.nTableEventCounter ≤ cfg.targetNumberOfEvents →
      (fillDerivedTable isMC cfg rng collision tracks particles s).tableCollisions.length =
          s.tableCollisions.length + 1 ∧
        (fillDerivedTable isMC cfg rng collision tracks particles s).nTableEventCounter =
          s.nTableEventCounter + 1) ∧
    (s.nTableEventCounter > cfg.targetNumberOfEvents →
      fillDerivedTable isMC cfg rng collision tracks particles s = s) := by
  have hlt : ¬ cfg.fractionOfSampledEvents < 1 := by rw [hf]; exact lt_irrefl 1
  unfold fillDerivedTable
  simp [hsel, hz, hlt]
  constructor
  · intro hle
    have hgt : ¬ s.nTableEventCounter > cfg.targetNumberOfEvents := not_lt.mpr hle
    simp [hgt, emitDerived_tableCollisions, emitDerived_nTableEventCounter]
  · intro hgt
    simp [hgt]

/-- Claim C2 witness: at `targetNumberOfEvents = 5` and running count 5, a
collision passing the other checks is admitted — one collision record is
appended and the running count becomes 6. -/
theorem c2_cap_admits_target_plus_one_witness :
    isSelectedCollision cfgTarget5 collWithTruth = true ∧
    ¬ |collWithTruth.posZ| > cfgTarget5.selectMaxVtxZ ∧
    cfgTarget5.fractionOfSampledEvents = 1 ∧
    stateCount5.nTableEventCounter ≤ cfgTarget5.targetNumberOfEvents ∧
    ((fillDerivedTable false cfgTarget5 zeroRng collWithTruth [trackNoTruth] []
          stateCount5).tableCollisions.length = stateCount5.tableCollisions.length + 1 ∧
      (fillDerivedTable false cfgTarget5 zeroRng collWithTruth [trackNoTruth] []
          stateCount5).nTableEventCounter = stateCount5.nTableEventCounter + 1) :=
  ⟨by decide, by decide, rfl, by decide,
    (c2_cap_admits_target_plus_one false cfgTarget5 zeroRng collWithTruth [trackNoTruth] []
        stateCount5 (by decide) (by decide) rfl).1 (by decide)⟩

/-- Claim C3: for every collision whose vertex position satisfies
`abs(posZ) > selectMaxVtxZ`, the writer rejects the collision: the state is
returned unchanged, so no output records are emitted and the running event
count is untouched. -/
theorem c3_vtxz_cut_rejects (isMC : Bool) (cfg : Config) (rng : Nat → Rat)
    (collision : Collision) (tracks : List Track) (particles : List McParticle)
    (s : WriterState) (h : |collision.posZ| > cfg.selectMaxVtxZ) :
    fillDerivedTable isMC cfg rng collision tracks particles s = s := by
  unfold fillDerivedTable
  by_cases hc : isSelectedCollision cfg collision <;> simp [hc, h]

/-- Claim C3 witness: a collision with `posZ = 150` under
`selectMaxVtxZ = 100` is rejected with no records emitted. -/
theorem c3_vtxz_cut_rejects_witness :
    |collPosZ150.posZ| > cfgBase.selectMaxVtxZ ∧
    fillDerivedTable false cfgBase zeroRng collPosZ150 [trackNoTruth] [] emptyState = emptyState :=
  ⟨by decide,
    c3_vtxz_cut_rejects false cfgBase zeroRng collPosZ150 [trackNoTruth] [] emptyState (by decide)⟩

/-- Claim C4: in MC mode `isSelectedTrack` accepts a track exactly when the
conjunction of the spec's predicates holds — the charge requirement, the
unmatched-track rule (accepted iff none of `selectPrim`, `selectSec`,
`selectPID` is active), and for matched tracks the primary-only,
secondary-only and absolute-value PID requirements; in particular a track
with `selectPID = 211` and truth PDG code -211 is admitted. -/
theorem c4_isSelectedTrack_conjunction :
    (∀ (cfg : Config) (track : Track),
      (isSelectedTrack true cfg track = true ↔ trackSelectionSpecMC cfg track)) ∧
    isSelectedTrack true cfgPID211 trackPionMinus = true := by
  constructor
  · intro cfg track
    unfold isSelectedTrack trackSelectionSpecMC
    rcases hm : track.mcParticle with _ | particle
    · cases hp : cfg.selectPrim <;> cases hs : cfg.selectSec <;>
        simp [hm, hp, hs] <;> tauto
    · cases hp : cfg.selectPrim <;> cases hs : cfg.selectSec <;>
        cases hpr : particle.isPhysicalPrimary <;>
          simp [hm, hp, hs, hpr] <;> tauto
  · decide

/-- Claim C4 witness: the pion track with truth PDG code -211 under
`selectPID = 211` is admitted, and the spec-side conjunction holds of it. -/
theorem c4_isSelectedTrack_conjunction_witness :
    isSelectedTrack true cfgPID211 trackPionMinus = true ∧
    trackSelectionSpecMC cfgPID211 trackPionMinus :=
  ⟨c4_isSelectedTrack_conjunction.2,
    (c4_isSelectedTrack_conjunction.1 cfgPID211 trackPionMinus).mp
      c4_isSelectedTrack_conjunction.2⟩

/-- Claim C5: the production classification is total and three-valued with
the precedence primary (0) over process-4 decay (1) over other (2) — a
physical-primary particle classifies as 0 regardless of its process code —
and the very same function gives the production field of every matched
per-track reconstructed record (`mkRecoParticleOut`) and of every
non-reconstructed record (`mkNonRecoParticleOut`). -/
theorem c5_classifyProduction_total :
    (∀ particle : McParticle,
      classifyProduction particle = 0 ∨ classifyProduction particle = 1 ∨
        classifyProduction particle = 2) ∧
    (∀ particle : McParticle, particle.isPhysicalPrimary = true →
      classifyProduction particle = 0) ∧
    (∀ particle : McParticle, particle.isPhysicalPrimary = false →
      particle.getProcess = 4 → classifyProduction particle = 1) ∧
    (∀ particle : McParticle, particle.isPhysicalPrimary = false →
      particle.getProcess ≠ 4 → classifyProduction particle = 2) ∧
    (∀ track : Track, (mkRecoParticleOut track).production =
      (match track.mcParticle with
       | some particle => classifyProduction particle
       | none => -1)) ∧
    (∀ (collisionIdx : Nat) (particle : McParticle),
      (mkNonRecoParticleOut collisionIdx particle).production = classifyProduction particle) := by
  refine ⟨?_, ?_, ?_, ?_, ?_, ?_⟩
  · intro p
    unfold classifyProduction
    split_ifs <;> simp
  · intro p hp
    simp [classifyProduction, hp]
  · intro p hp hproc
    simp [classifyProduction, hp, hproc]
  · intro p hp hproc
    simp [classifyProduction, hp, hproc]
  · intro t
    rcases hm : t.mcParticle with _ | particle <;> simp [mkRecoParticleOut, hm]
  · intro cIdx p
    rfl

/-- Claim C5 witness: the three classification outcomes at concrete
particles — a physical primary classifies as 0, a non-primary with process 4
as 1, and a non-primary with process 2 as 2. -/
theorem c5_classifyProduction_total_witness :
    truthParticleZero.isPhysicalPrimary = true ∧
    classifyProduction truthParticleZero = 0 ∧
    decayParticle.isPhysicalPrimary = false ∧
    decayParticle.getProcess = 4 ∧
    classifyProduction decayParticle = 1 ∧
    materialParticle.isPhysicalPrimary = false ∧
    materialParticle.getProcess ≠ 4 ∧
    classifyProduction materialParticle = 2 :=
  ⟨rfl, c5_classifyProduction_total.2.1 truthParticleZero rfl,
    rfl, rfl, c5_classifyProduction_total.2.2.1 decayParticle rfl rfl,
    rfl, by decide, c5_classifyProduction_total.2.2.2.1 materialParticle rfl (by decide)⟩

/-- Claim C6: whenever `isSelectedCollision` is false the collision is not
admitted — the writer returns its state unchanged (no records emitted,
running count untouched, random stream untouched) — for every value of the
other configurables, of the random stream, and of the state. -/
theorem c6_collision_selection_precedence (isMC : Bool) (cfg : Config) (rng : Nat → Rat)
    (collision : Collision) (tracks : List Track) (particles : List McParticle)
    (s : WriterState) (h : isSelectedCollision cfg collision = false) :
    fillDerivedTable isMC cfg rng collision tracks particles s = s := by
  unfold fillDerivedTable
  simp [h]

/-- Claim C6 witness: with `selectGoodEvents` on and both selection bits off
the collision fails `isSelectedCollision` and the writer state is
unchanged. -/
theorem c6_collision_selection_precedence_witness :
    isSelectedCollision cfgGoodEvents collSel7Off = false ∧
    fillDerivedTable false cfgGoodEvents zeroRng collSel7Off [trackNoTruth] [] emptyState =
      emptyState :=
  ⟨by decide,
    c6_collision_selection_precedence false cfgGoodEvents zeroRng collSel7Off [trackNoTruth] []
      emptyState (by decide)⟩

/-- Claim C7: the writer preserves referential integrity of the output
tables — every emitted track and non-reconstructed-particle record
back-references an existing (hence unique) collision record's output
position — and, within one call, every newly appended child record
back-references exactly the position of the collision record appended
earlier in that same call (`tableCollisions.lastIndex()`), which lies
strictly before the end of the grown collision table, so no child ever
holds a forward reference; moreover if any track record was appended then
the collision table grew by exactly the one collision record. -/
theorem c7_child_refs_integrity (isMC : Bool) (cfg : Config) (rng : Nat → Rat)
    (collision : Collision) (tracks : List Track) (particles : List McParticle)
    (s : WriterState) (hwf : wfRefs s) :
    wfRefs (fillDerivedTable isMC cfg rng collision tracks particles s) ∧
    (∀ t ∈ (fillDerivedTable isMC cfg rng collision tracks particles s).tableTracks.drop
        s.tableTracks.length, t.collisionId = s.tableCollisions.length) ∧
    (∀ r ∈ (fillDerivedTable isMC cfg rng collision tracks particles s).tableNonRecoParticles.drop
        s.tableNonRecoParticles.length, r.collisionId = s.tableCollisions.length) ∧
    ((fillDerivedTable isMC cfg rng collision tracks particles s).tableTracks ≠ s.tableTracks →
      (fillDerivedTable isMC cfg rng collision tracks particles s).tableCollisions.length =
        s.tableCollisions.length + 1) := by
  have hemit : ∀ s' : WriterState, s'.tableCollisions = s.tableCollisions →
      s'.tableTracks = s.tableTracks → s'.tableNonRecoParticles = s.tableNonRecoParticles →
      wfRefs (emitDerived isMC cfg collision tracks particles s') ∧
      (∀ t ∈ (emitDerived isMC cfg collision tracks particles s').tableTracks.drop
          s.tableTracks.length, t.collisionId = s.tableCollisions.length) ∧
      (∀ r ∈ (emitDerived isMC cfg collision tracks particles s').tableNonRecoParticles.drop
          s.tableNonRecoParticles.length, r.collisionId = s.tableCollisions.length) ∧
      ((emitDerived isMC cfg collision tracks particles s').tableTracks ≠ s.tableTracks →
        (emitDerived isMC cfg collision tracks particles s').tableCollisions.length =
          s.tableCollisions.length + 1) := by
    intro s' hco htr hnr
    obtain ⟨newRows, hnew, hnewref⟩ :=
      emitDerived_tableNonReco_spec isMC cfg collision tracks particles s'
    refine ⟨⟨?_, ?_⟩, ?_, ?_, ?_⟩
    · intro t ht
      rw [emitDerived_tableTracks, htr] at ht
      rw [emitDerived_tableCollisions, hco]
      rcases List.mem_append.mp ht with hold | hnewt
      · have := hwf.1 t hold
        simp only [List.length_append, List.length_cons, List.length_nil]
        omega
      · obtain ⟨track, -, htk⟩ := List.mem_map.mp hnewt
        subst htk
        simp [mkTrackOut, hco]
    · intro r hr
      rw [hnew, hnr] at hr
      rw [emitDerived_tableCollisions, hco]
      rcases List.mem_append.mp hr with hold | hnewr
      · have := hwf.2 r hold
        simp only [List.length_append, List.length_cons, List.length_nil]
        omega
      · have := hnewref r hnewr
        rw [hco] at this
        simp only [List.length_append, List.length_cons, List.length_nil]
        omega
    · intro t ht
      rw [emitDerived_tableTracks, htr, List.drop_left] at ht
      obtain ⟨track, -, htk⟩ := List.mem_map.mp ht
      subst htk
      simp [mkTrackOut, hco]
    · intro r hr
      rw [hnew, hnr, List.drop_left] at hr
      have := hnewref r hr
      rw [hco] at this
      exact this
    · intro
      rw [emitDerived_tableCollisions, hco]
      simp
  have hsame : ∀ s' : WriterState, s'.tableCollisions = s.tableCollisions →
      s'.tableTracks = s.tableTracks → s'.tableNonRecoParticles = s.tableNonRecoParticles →
      wfRefs s' ∧
      (∀ t ∈ s'.tableTracks.drop s.tableTracks.length,
        t.collisionId = s.tableCollisions.length) ∧
      (∀ r ∈ s'.tableNonRecoParticles.drop s.tableNonRecoParticles.length,
        r.collisionId = s.tableCollisions.length) ∧
      (s'.tableTracks ≠ s.tableTracks →
        s'.tableCollisions.length = s.tableCollisions.length + 1) := by
    intro s' hco htr hnr
    refine ⟨⟨?_, ?_⟩, ?_, ?_, ?_⟩
    · rw [htr, hco]; exact hwf.1
    · rw [hnr, hco]; exact hwf.2
    · rw [htr, List.drop_length]; intro t ht; exact absurd ht (List.not_mem_nil t)
    · rw [hnr, List.drop_length]; intro r hr; exact absurd hr (List.not_mem_nil r)
    · intro hne; exact absurd htr hne
  unfold fillDerivedTable
  by_cases hc : isSelectedCollision cfg collision
  · by_cases hz : |collision.posZ| > cfg.selectMaxVtxZ
    · simp only [hc, Bool.not_true, Bool.false_eq_true, if_false, hz, if_true]
      exact hsame s rfl rfl rfl
    · by_cases hfr : cfg.fractionOfSampledEvents < 1
      · by_cases hdraw : rng s.rngIndex > cfg.fractionOfSampledEvents
        · simp only [hc, Bool.not_true, Bool.false_eq_true, if_false, hz, if_true, hfr, hdraw,
            and_self, true_and]
          exact hsame _ rfl rfl rfl
        · simp only [hc, Bool.not_true, Bool.false_eq_true, if_false, hz, if_true, hfr, hdraw,
            and_false, false_and, if_true, true_and]
          by_cases hg : s.nTableEventCounter > cfg.targetNumberOfEvents
          · simp only [hg, if_true]
            exact hsame _ rfl rfl rfl
          · simp only [hg, if_false]
            exact hemit _ rfl rfl rfl
      · simp only [hc, Bool.not_true, Bool.false_eq_true, if_false, hz, if_true, hfr, false_and,
          and_false]
        by_cases hg : s.nTableEventCounter > cfg.targetNumberOfEvents
        · simp only [hg, if_true]
          exact hsame _ rfl rfl rfl
        · simp only [hg, if_false]
          exact hemit _ rfl rfl rfl
  · simp only [hc, Bool.not_false, if_true]
    exact hsame s rfl rfl rfl

/-- Claim C7 witness: starting from the empty (trivially well-formed) state
and writing one admitted MC collision with one matched track, the result is
well-formed, all new child records reference output position 0 (the
collision just appended), and the collision table grew by one. -/
theorem c7_child_refs_integrity_witness :
    wfRefs emptyState ∧
    (wfRefs (fillDerivedTable true cfgBase zeroRng collWithTruth [trackPionMinus]
        [truthParticleZero] emptyState) ∧
      (∀ t ∈ (fillDerivedTable true cfgBase zeroRng collWithTruth [trackPionMinus]
          [truthParticleZero] emptyState).tableTracks.drop emptyState.tableTracks.length,
        t.collisionId = emptyState.tableCollisions.length) ∧
      (∀ r ∈ (fillDerivedTable true cfgBase zeroRng collWithTruth [trackPionMinus]
          [truthParticleZero] emptyState).tableNonRecoParticles.drop
            emptyState.tableNonRecoParticles.length,
        r.collisionId = emptyState.tableCollisions.length) ∧
      ((fillDerivedTable true cfgBase zeroRng collWithTruth [trackPionMinus]
          [truthParticleZero] emptyState).tableTracks ≠ emptyState.tableTracks →
        (fillDerivedTable true cfgBase zeroRng collWithTruth [trackPionMinus]
            [truthParticleZero] emptyState).tableCollisions.length =
          emptyState.tableCollisions.length + 1)) :=
  ⟨⟨by simp [emptyState], by simp [emptyState]⟩,
    c7_child_refs_integrity true cfgBase zeroRng collWithTruth [trackPionMinus]
      [truthParticleZero] emptyState ⟨by simp [emptyState], by simp [emptyState]⟩⟩

/-- Claim C8: with `fractionOfSampledEvents = 1` and the running count below
the target, the writer is deterministic — the result does not depend on the
random stream at all, and the stream cursor is never advanced (the random
draw is not consulted when the sampling fraction is not below 1). -/
theorem c8_full_fraction_deterministic (isMC : Bool) (cfg : Config) (rng1 rng2 : Nat → Rat)
    (collision : Collision) (tracks : List Track) (particles : List McParticle)
    (s : WriterState)
    (hf : cfg.fractionOfSampledEvents = 1)
    (_hcnt : s.nTableEventCounter < cfg.targetNumberOfEvents) :
    fillDerivedTable isMC cfg rng1 collision tracks particles s =
      fillDerivedTable isMC cfg rng2 collision tracks particles s ∧
    (fillDerivedTable isMC cfg rng1 collision tracks particles s).rngIndex = s.rngIndex := by
  have hlt : ¬ cfg.fractionOfSampledEvents < 1 := by rw [hf]; exact lt_irrefl 1
  unfold fillDerivedTable
  simp [hlt]
  by_cases hc : isSelectedCollision cfg collision <;>
    by_cases hz : |collision.posZ| > cfg.selectMaxVtxZ <;>
      by_cases hg : s.nTableEventCounter > cfg.targetNumberOfEvents <;>
        simp [hc, hz, hg, emitDerived_rngIndex]

/-- Claim C8 witness: two different random streams (all-zero and all-one)
give the identical output on a concrete admitted MC collision, and the
stream cursor stays at 0. -/
theorem c8_full_fraction_deterministic_witness :
    cfgBase.fractionOfSampledEvents = 1 ∧
    emptyState.nTableEventCounter < cfgBase.targetNumberOfEvents ∧
    (fillDerivedTable true cfgBase zeroRng collWithTruth [trackPionMinus] [truthParticleZero]
        emptyState =
      fillDerivedTable true cfgBase oneRng collWithTruth [trackPionMinus] [truthParticleZero]
        emptyState ∧
      (fillDerivedTable true cfgBase zeroRng collWithTruth [trackPionMinus] [truthParticleZero]
          emptyState).rngIndex = emptyState.rngIndex) :=
  ⟨rfl, by decide,
    c8_full_fraction_deterministic true cfgBase zeroRng oneRng collWithTruth [trackPionMinus]
      [truthParticleZero] emptyState rfl (by decide)⟩

/-- Claim C9: enabling both derived-table production modes at once is a
fatal initialization error, and with at most one of the two modes enabled
the check does not raise this error. -/
theorem c9_table_modes_mutually_exclusive :
    ∀ doprocessTableData doprocessTableMC : Bool,
      (initTableModeCheck doprocessTableData doprocessTableMC =
          Except.error InitError.mutuallyExclusiveTableModes ↔
        doprocessTableData = true ∧ doprocessTableMC = true) := by
  intro d m
  cases d <;> cases m <;> simp [initTableModeCheck]

/-- Claim C10: in the data instantiation (`IS_MC = false`) the outcome of
`isSelectedTrack` depends only on `selectCharge` and the track's charge
sign: any two configurations agreeing on `selectCharge` — in particular
ones differing arbitrarily in `selectPrim`, `selectSec`, `selectPID` — give
the same outcome on any two tracks of equal sign. -/
theorem c10_data_mode_truth_options_inert (cfg cfg' : Config) (track track' : Track)
    (hcharge : cfg.selectCharge = cfg'.selectCharge) (hsign : track.sign = track'.sign) :
    isSelectedTrack false cfg track = isSelectedTrack false cfg' track' := by
  simp only [isSelectedTrack, hcharge, hsign, Bool.false_eq_true, if_false]

/-- Claim C10 witness: turning on all truth-based options (and a different
truth link on the track) leaves the data-mode selection outcome unchanged. -/
theorem c10_data_mode_truth_options_inert_witness :
    cfgBase.selectCharge = cfgTruthOptionsOn.selectCharge ∧
    trackNoTruth.sign = trackPionMinus.sign ∧
    isSelectedTrack false cfgBase trackNoTruth =
      isSelectedTrack false cfgTruthOptionsOn trackPionMinus :=
  ⟨rfl, rfl,
    c10_data_mode_truth_options_inert cfgBase cfgTruthOptionsOn trackNoTruth trackPionMinus
      rfl rfl⟩
